import Mathlib

/-
Shallow embedding of the signal-detection and scoring engine of
`src/ai_misinformation_tool_react_single_file.jsx` (functions `clamp`,
`fakeConfidenceFromSignals`, `mockAnalyze`).

Modelling conventions:
* JavaScript strings are `List Char`; `String.prototype.toLowerCase` is
  `List.map Char.toLower` (the inputs of interest are ASCII).
* The dynamically typed `content` value is a `JsValue`; `content || ""`
  followed by `.toString()` is `contentString`.
* Regular-expression search (`String.prototype.match`, which finds the
  leftmost match) is an explicit left-to-right scan over the character list.
* The analysis instant (`new Date()` in the source) is injected as an
  explicit parameter `now : Nat` holding the ordinal key
  `y * 10000 + m * 100 + d` of the current civil date; for a parsed
  ISO date `d` (which denotes midnight of that date) the comparison
  `d > new Date()` holds exactly when `now < dateKey y m d`, because the
  key order of valid dates agrees with calendar order.  An ISO string the
  `Date` constructor rejects (month or day out of range) yields an invalid
  date, for which the comparison is false; `validYMD` captures that check.
* The UI component around `mockAnalyze` is presentation plumbing and is
  not part of the embedding.
-/

namespace Misinfo

/-- The closed vocabulary of detected signals; the constructors mirror the
string tags `too-short`, `clickbait-y`, `no-sources`, `fabricated-dates`,
`image-manipulated`, `authoritative-sources`, `many-contradictions` pushed
by `mockAnalyze`. -/
inductive Signal where
  | tooShort
  | clickbaity
  | noSources
  | fabricatedDates
  | imageManipulated
  | authoritativeSources
  | manyContradictions
deriving DecidableEq

/-- The three verdict buckets produced by the ternary on line 70 of the
source (`"Likely Real"`, `"Likely Fake"`, `"Unclear / Needs Review"`). -/
inductive Verdict where
  | likelyReal
  | likelyFake
  | needsReview
deriving DecidableEq

/-- The result object returned by `mockAnalyze`. -/
structure AnalysisResult where
  verdict : Verdict
  confidence : Int
  signals : List Signal
  explanation : List String
  recommendedActions : List String
deriving DecidableEq

/-- A JavaScript value that may be supplied as `content`: the engine is
dynamically typed, so absent (`undefined`), `null`, boolean and (integer)
number values are representable besides strings. -/
inductive JsValue where
  | undef
  | nullV
  | str (s : List Char)
  | num (n : Int)
  | boolV (b : Bool)

/-- JavaScript truthiness test on `JsValue` (`!content` in the source is
the negation of this). -/
def jsFalsy : JsValue → Bool
  | .undef => true
  | .nullV => true
  | .str s => s.isEmpty
  | .num n => n == 0
  | .boolV b => !b

/-- JavaScript `toString()` on a `JsValue`. -/
def jsToString : JsValue → List Char
  | .undef => ("undefined".toList)
  | .nullV => ("null".toList)
  | .str s => s
  | .num n => (toString n).toList
  | .boolV b => if b then ("true".toList) else ("false".toList)

/-- The string the engine works on: `(content || "").toString()` — a falsy
`content` is replaced by the empty string before conversion. -/
def contentString (content : JsValue) : List Char :=
  if jsFalsy content then [] else jsToString content

/-- The case-folded content: `(content || "").toString().toLowerCase()`. -/
def lowerOf (content : JsValue) : List Char :=
  (contentString content).map Char.toLower

/-- Does `s` start with the pattern `pat`? (prefix test used by the
substring scan). -/
def startsWithL : List Char → List Char → Bool
  | _, [] => true
  | [], _ :: _ => false
  | c :: s, p :: pat => c == p && startsWithL s pat

/-- JavaScript `String.prototype.includes`: does `s` contain `pat` as a
contiguous substring? -/
def containsL : List Char → List Char → Bool
  | [], pat => startsWithL [] pat
  | c :: s, pat => startsWithL (c :: s) pat || containsL s pat

/-- JavaScript `String.prototype.trim`: strip whitespace from both ends. -/
def trimL (s : List Char) : List Char :=
  ((s.dropWhile Char.isWhitespace).reverse.dropWhile Char.isWhitespace).reverse

/-- Does the regex `\d{4}-\d{2}-\d{2}` match at the head of `s`? -/
def matchesDate10At (s : List Char) : Bool :=
  match s with
  | a :: b :: c :: d :: h1 :: e :: f :: h2 :: g :: i :: _ =>
    a.isDigit && b.isDigit && c.isDigit && d.isDigit && h1 == '-' &&
    e.isDigit && f.isDigit && h2 == '-' && g.isDigit && i.isDigit
  | _ => false

/-- Does `\d{4}-\d{2}-\d{2}` match anywhere in `s`? (the test
`lower.match(/\d{4}-\d{2}-\d{2}/)` on line 51). -/
def hasDatePattern : List Char → Bool
  | [] => false
  | c :: s => matchesDate10At (c :: s) || hasDatePattern s

/-- Numeric value of a digit character. -/
def digitVal (c : Char) : Nat := c.toNat - 48

/-- Try to match the regex `20\d{2}-\d{2}-\d{2}` at the head of `s`,
returning the year, month and day read from the digits. -/
def match20At (s : List Char) : Option (Nat × Nat × Nat) :=
  match s with
  | c2 :: c0 :: y1 :: y2 :: h1 :: m1 :: m2 :: h2 :: d1 :: d2 :: _ =>
    if c2 == '2' && c0 == '0' && y1.isDigit && y2.isDigit && h1 == '-' &&
       m1.isDigit && m2.isDigit && h2 == '-' && d1.isDigit && d2.isDigit then
      some (2000 + 10 * digitVal y1 + digitVal y2,
            10 * digitVal m1 + digitVal m2,
            10 * digitVal d1 + digitVal d2)
    else none
  | _ => none

/-- Leftmost match of `20\d{2}-\d{2}-\d{2}` in `s` (the capture in
`lower.match(/(20\d{2}-\d{2}-\d{2})/)` on line 53). -/
def firstDate20 : List Char → Option (Nat × Nat × Nat)
  | [] => none
  | c :: s =>
    match match20At (c :: s) with
    | some r => some r
    | none => firstDate20 s

/-- Gregorian leap-year test. -/
def isLeap (y : Nat) : Bool := (y % 4 == 0 && y % 100 != 0) || y % 400 == 0

/-- Number of days in a month. -/
def daysInMonth (y m : Nat) : Nat :=
  if m == 2 then (if isLeap y then 29 else 28)
  else if m == 4 || m == 6 || m == 9 || m == 11 then 30 else 31

/-- Is `y`-`m`-`d` a real calendar date?  `new Date("YYYY-MM-DD")` yields
an invalid date exactly when this fails, and every comparison against an
invalid date is false. -/
def validYMD (y m d : Nat) : Bool :=
  1 ≤ m && m ≤ 12 && 1 ≤ d && d ≤ daysInMonth y m

/-- Ordinal key of a calendar date; on valid dates its order is calendar
order, and the analysis instant `now` is the key of the current date. -/
def dateKey (y m d : Nat) : Nat := y * 10000 + m * 100 + d

/-- The body of lines 51–58 of the source: if the content matches
`\d{4}-\d{2}-\d{2}`, take the leftmost match of `20\d{2}-\d{2}-\d{2}`,
parse it with the `Date` constructor, and fire when that date is strictly
after the analysis instant. -/
def fabricatedDatesCheck (lower : List Char) (now : Nat) : Bool :=
  if hasDatePattern lower then
    match firstDate20 lower with
    | some (y, m, d) => validYMD y m d && decide (now < dateKey y m d)
    | none => false
  else false

def patShocking : List Char := "shocking".toList
def patWontBelieve : List Char := "you won\x27t believe".toList
def patOurSources : List Char := "according to our sources".toList
def patHttps : List Char := "https".toList
def patDeepfake : List Char := "deepfake".toList
def patAiGenerated : List Char := "ai-generated".toList
def patCdc : List Char := "cdc".toList
def patWho : List Char := "who".toList
def patNyt : List Char := "nyt".toList
def patContradictory : List Char := "contradictory".toList
def patButThen : List Char := "but then".toList

/-- Lines 39–67 of the source: build the signal list by running every
check on the case-folded content, pushing tags in the source's order. -/
def extractSignals (content : JsValue) (now : Nat) : List Signal :=
  let lower := lowerOf content
  let signals : List Signal := []
  let signals :=
    if jsFalsy content || decide ((trimL lower).length < 10) then
      signals ++ [Signal.tooShort] else signals
  let signals :=
    if containsL lower patShocking || containsL lower patWontBelieve then
      signals ++ [Signal.clickbaity] else signals
  let signals :=
    if containsL lower patOurSources && !containsL lower patHttps then
      signals ++ [Signal.noSources] else signals
  let signals :=
    if fabricatedDatesCheck lower now then
      signals ++ [Signal.fabricatedDates] else signals
  let signals :=
    if containsL lower patDeepfake || containsL lower patAiGenerated then
      signals ++ [Signal.imageManipulated] else signals
  let signals :=
    if containsL lower patCdc || containsL lower patWho || containsL lower patNyt then
      signals ++ [Signal.authoritativeSources] else signals
  let signals :=
    if containsL lower patContradictory || containsL lower patButThen then
      signals ++ [Signal.manyContradictions] else signals
  signals

/-- Lines 18–20 of the source: `Math.max(a, Math.min(b, n))`. -/
def clamp (n a b : Int) : Int := max a (min b n)

/-- Lines 22–31 of the source: start at 50, apply the weight of each
present signal (`Array.prototype.includes` is list membership), clamp. -/
def fakeConfidenceFromSignals (signals : List Signal) : Int :=
  let score : Int := 50
  let score := if Signal.manyContradictions ∈ signals then score - 30 else score
  let score := if Signal.authoritativeSources ∈ signals then score + 25 else score
  let score := if Signal.fabricatedDates ∈ signals then score - 20 else score
  let score := if Signal.noSources ∈ signals then score - 15 else score
  let score := if Signal.imageManipulated ∈ signals then score - 25 else score
  clamp score 0 100

/-- Line 70 of the source: the verdict ternary over the confidence. -/
def verdictOf (confidence : Int) : Verdict :=
  if confidence ≥ 60 then Verdict.likelyReal
  else if confidence ≤ 35 then Verdict.likelyFake
  else Verdict.needsReview

def msgTooShort : String :=
  "The text is very short — short claims often lack context or sources."
def msgClickbait : String :=
  "Language matches clickbait patterns; be cautious of exaggerated claims."
def msgNoSources : String :=
  "Claims use vague \x27sources\x27 without links — prefer named verifiable sources."
def msgFabricatedDates : String :=
  "The text references dates that appear to be in the future or inconsistent."
def msgAuthoritative : String :=
  "Mentions recognized organizations — try to verify via their official channels."
def msgImageManipulated : String :=
  "Mentions AI-generation or manipulation; images/video may be altered."
def msgManyContradictions : String :=
  "The text contains contradictory statements — check multiple reputable sources."
def msgNoFlags : String :=
  "No strong heuristic red flags detected in the quick demo check."

/-- The constant `recommendedActions` array of lines 88–93. -/
def recommendedActionsList : List String :=
  ["Cross-check with 2 reputable outlets (official organizations, verified news sites)",
   "Search for the exact claim text in quotes — see if original context exists",
   "If image/video is claimed, reverse-image-search it or inspect metadata",
   "Prefer primary sources (official statements, reports) over social posts"]

/-- Lines 34–95 of the source (without the simulated network delay, which
only suspends the computation): extract signals, score, classify, build
the explanation list in the source's order with the fallback sentence,
and return the result object. -/
def mockAnalyze (content : JsValue) (now : Nat) : AnalysisResult :=
  let signals := extractSignals content now
  let confidence := fakeConfidenceFromSignals signals
  let verdict := verdictOf confidence
  let explanation : List String := []
  let explanation :=
    if Signal.tooShort ∈ signals then explanation ++ [msgTooShort] else explanation
  let explanation :=
    if Signal.clickbaity ∈ signals then explanation ++ [msgClickbait] else explanation
  let explanation :=
    if Signal.noSources ∈ signals then explanation ++ [msgNoSources] else explanation
  let explanation :=
    if Signal.fabricatedDates ∈ signals then explanation ++ [msgFabricatedDates] else explanation
  let explanation :=
    if Signal.authoritativeSources ∈ signals then explanation ++ [msgAuthoritative] else explanation
  let explanation :=
    if Signal.imageManipulated ∈ signals then explanation ++ [msgImageManipulated] else explanation
  let explanation :=
    if Signal.manyContradictions ∈ signals then explanation ++ [msgManyContradictions] else explanation
  let explanation :=
    if explanation.length == 0 then [msgNoFlags] else explanation
  { verdict := verdict
    confidence := confidence
    signals := signals
    explanation := explanation
    recommendedActions := recommendedActionsList }

end Misinfo

namespace Misinfo

/-- Pushing onto a list under a condition equals appending a conditional
singleton; used to normalise the sequential `push` calls of the source. -/
theorem if_push {α : Type} (c : Prop) [Decidable c] (s : List α) (a : α) :
    (if c then s ++ [a] else s) = s ++ (if c then [a] else []) := by
  split <;> simp

theorem mem_ite_singleton {α : Type} (c : Prop) [Decidable c] (x a : α) :
    (x ∈ (if c then [a] else ([] : List α))) ↔ c ∧ x = a := by
  split <;> simp_all

/-- The signal list is the concatenation of one conditional singleton per
check, in the source's push order. -/
theorem extractSignals_eq (content : JsValue) (now : Nat) :
    extractSignals content now =
      (if jsFalsy content || decide ((trimL (lowerOf content)).length < 10) then
        [Signal.tooShort] else [])
      ++ (if containsL (lowerOf content) patShocking
            || containsL (lowerOf content) patWontBelieve then
        [Signal.clickbaity] else [])
      ++ (if containsL (lowerOf content) patOurSources
            && !containsL (lowerOf content) patHttps then
        [Signal.noSources] else [])
      ++ (if fabricatedDatesCheck (lowerOf content) now then
        [Signal.fabricatedDates] else [])
      ++ (if containsL (lowerOf content) patDeepfake
            || containsL (lowerOf content) patAiGenerated then
        [Signal.imageManipulated] else [])
      ++ (if containsL (lowerOf content) patCdc || containsL (lowerOf content) patWho
            || containsL (lowerOf content) patNyt then
        [Signal.authoritativeSources] else [])
      ++ (if containsL (lowerOf content) patContradictory
            || containsL (lowerOf content) patButThen then
        [Signal.manyContradictions] else []) := by
  unfold extractSignals
  simp only [if_push]
  simp only [List.nil_append, List.append_assoc]

theorem tooShort_mem_iff (content : JsValue) (now : Nat) :
    Signal.tooShort ∈ extractSignals content now ↔
      (jsFalsy content || decide ((trimL (lowerOf content)).length < 10)) = true := by
  rw [extractSignals_eq]
  simp [List.mem_append, mem_ite_singleton]

theorem clickbaity_mem_iff (content : JsValue) (now : Nat) :
    Signal.clickbaity ∈ extractSignals content now ↔
      (containsL (lowerOf content) patShocking
        || containsL (lowerOf content) patWontBelieve) = true := by
  rw [extractSignals_eq]
  simp [List.mem_append, mem_ite_singleton]

theorem noSources_mem_iff (content : JsValue) (now : Nat) :
    Signal.noSources ∈ extractSignals content now ↔
      (containsL (lowerOf content) patOurSources
        && !containsL (lowerOf content) patHttps) = true := by
  rw [extractSignals_eq]
  simp [List.mem_append, mem_ite_singleton]

theorem fabricatedDates_mem_iff (content : JsValue) (now : Nat) :
    Signal.fabricatedDates ∈ extractSignals content now ↔
      fabricatedDatesCheck (lowerOf content) now = true := by
  rw [extractSignals_eq]
  simp [List.mem_append, mem_ite_singleton]

theorem imageManipulated_mem_iff (content : JsValue) (now : Nat) :
    Signal.imageManipulated ∈ extractSignals content now ↔
      (containsL (lowerOf content) patDeepfake
        || containsL (lowerOf content) patAiGenerated) = true := by
  rw [extractSignals_eq]
  simp [List.mem_append, mem_ite_singleton]

theorem authoritativeSources_mem_iff (content : JsValue) (now : Nat) :
    Signal.authoritativeSources ∈ extractSignals content now ↔
      (containsL (lowerOf content) patCdc || containsL (lowerOf content) patWho
        || containsL (lowerOf content) patNyt) = true := by
  rw [extractSignals_eq]
  simp [List.mem_append, mem_ite_singleton]

theorem manyContradictions_mem_iff (content : JsValue) (now : Nat) :
    Signal.manyContradictions ∈ extractSignals content now ↔
      (containsL (lowerOf content) patContradictory
        || containsL (lowerOf content) patButThen) = true := by
  rw [extractSignals_eq]
  simp [List.mem_append, mem_ite_singleton]

/-- The sum of the per-signal weight deltas of the weighted signals
present, as the spec states it (the spec-side characterisation of the
scorer, to be compared with `fakeConfidenceFromSignals`). -/
def signalDeltaSum (signals : List Signal) : Int :=
  (if Signal.manyContradictions ∈ signals then (-30 : Int) else 0)
  + (if Signal.authoritativeSources ∈ signals then (25 : Int) else 0)
  + (if Signal.fabricatedDates ∈ signals then (-20 : Int) else 0)
  + (if Signal.noSources ∈ signals then (-15 : Int) else 0)
  + (if Signal.imageManipulated ∈ signals then (-25 : Int) else 0)

theorem fake_eq (signals : List Signal) :
    fakeConfidenceFromSignals signals = clamp (50 + signalDeltaSum signals) 0 100 := by
  unfold fakeConfidenceFromSignals signalDeltaSum
  by_cases h1 : Signal.manyContradictions ∈ signals <;>
    by_cases h2 : Signal.authoritativeSources ∈ signals <;>
      by_cases h3 : Signal.fabricatedDates ∈ signals <;>
        by_cases h4 : Signal.noSources ∈ signals <;>
          by_cases h5 : Signal.imageManipulated ∈ signals <;>
            simp [h1, h2, h3, h4, h5]

/-- The scorer only looks at membership of the five weighted signals. -/
theorem fake_congr (s t : List Signal)
    (h1 : Signal.manyContradictions ∈ s ↔ Signal.manyContradictions ∈ t)
    (h2 : Signal.authoritativeSources ∈ s ↔ Signal.authoritativeSources ∈ t)
    (h3 : Signal.fabricatedDates ∈ s ↔ Signal.fabricatedDates ∈ t)
    (h4 : Signal.noSources ∈ s ↔ Signal.noSources ∈ t)
    (h5 : Signal.imageManipulated ∈ s ↔ Signal.imageManipulated ∈ t) :
    fakeConfidenceFromSignals s = fakeConfidenceFromSignals t := by
  rw [fake_eq, fake_eq]
  unfold signalDeltaSum
  rw [if_congr h1 rfl rfl, if_congr h2 rfl rfl, if_congr h3 rfl rfl,
      if_congr h4 rfl rfl, if_congr h5 rfl rfl]

theorem clamp_bounds (n : Int) : 0 ≤ clamp n 0 100 ∧ clamp n 0 100 ≤ 100 := by
  unfold clamp
  omega

end Misinfo

namespace Misinfo

theorem toNat_ofNat_valid {n : Nat} (h : n < 55296) : (Char.ofNat n).toNat = n := by
  unfold Char.ofNat
  rw [dif_pos (Or.inl h)]
  rfl

/-- ASCII lower-casing is idempotent. -/
theorem toLower_toLower (c : Char) : c.toLower.toLower = c.toLower := by
  unfold Char.toLower
  by_cases h : c.toNat ≥ 65 ∧ c.toNat ≤ 90
  · rw [if_pos h]
    have h2 : (Char.ofNat (c.toNat + 32)).toNat = c.toNat + 32 :=
      toNat_ofNat_valid (by omega)
    rw [if_neg (by rw [h2]; omega)]
  · rw [if_neg h, if_neg h]

theorem map_toLower_idem (s : List Char) :
    (s.map Char.toLower).map Char.toLower = s.map Char.toLower := by
  induction s with
  | nil => rfl
  | cons c s ih => simp [toLower_toLower, ih]

theorem contentString_str (s : List Char) : contentString (.str s) = s := by
  cases s <;> simp [contentString, jsFalsy, jsToString]

theorem lowerOf_str_toLower (s : List Char) :
    lowerOf (.str (s.map Char.toLower)) = lowerOf (.str s) := by
  unfold lowerOf
  rw [contentString_str, contentString_str, map_toLower_idem]

/-- Signal extraction only sees the case-folded content: feeding the
lower-cased string gives the same signals. -/
theorem extractSignals_casefold (s : List Char) (now : Nat) :
    extractSignals (.str (s.map Char.toLower)) now = extractSignals (.str s) now := by
  rw [extractSignals_eq, extractSignals_eq, lowerOf_str_toLower]
  have hf : jsFalsy (.str (s.map Char.toLower)) = jsFalsy (.str s) := by
    cases s <;> rfl
  rw [hf]

theorem mockAnalyze_signals (content : JsValue) (now : Nat) :
    (mockAnalyze content now).signals = extractSignals content now := rfl

theorem mockAnalyze_confidence (content : JsValue) (now : Nat) :
    (mockAnalyze content now).confidence
      = fakeConfidenceFromSignals (extractSignals content now) := rfl

theorem mockAnalyze_verdict (content : JsValue) (now : Nat) :
    (mockAnalyze content now).verdict
      = verdictOf (mockAnalyze content now).confidence := rfl

theorem mockAnalyze_actions (content : JsValue) (now : Nat) :
    (mockAnalyze content now).recommendedActions = recommendedActionsList := rfl

/-- The enumeration order in which the source appends explanation
sentences (the order of the `if` blocks on lines 73–79). -/
def orderedSignals : List Signal :=
  [Signal.tooShort, Signal.clickbaity, Signal.noSources, Signal.fabricatedDates,
   Signal.authoritativeSources, Signal.imageManipulated, Signal.manyContradictions]

/-- The fixed explanatory sentence of each signal. -/
def sentenceOf : Signal → String
  | .tooShort => msgTooShort
  | .clickbaity => msgClickbait
  | .noSources => msgNoSources
  | .fabricatedDates => msgFabricatedDates
  | .authoritativeSources => msgAuthoritative
  | .imageManipulated => msgImageManipulated
  | .manyContradictions => msgManyContradictions

set_option maxHeartbeats 1000000 in
/-- The explanation list is the sentences of the present signals in the
source's enumeration order, or the fallback sentence when none apply. -/
theorem mockAnalyze_explanation_eq (content : JsValue) (now : Nat) :
    (mockAnalyze content now).explanation =
      if ((orderedSignals.filter
            (fun a => decide (a ∈ extractSignals content now))).map sentenceOf).length = 0
      then [msgNoFlags]
      else (orderedSignals.filter
            (fun a => decide (a ∈ extractSignals content now))).map sentenceOf := by
  unfold mockAnalyze
  by_cases h1 : Signal.tooShort ∈ extractSignals content now <;>
    by_cases h2 : Signal.clickbaity ∈ extractSignals content now <;>
      by_cases h3 : Signal.noSources ∈ extractSignals content now <;>
        by_cases h4 : Signal.fabricatedDates ∈ extractSignals content now <;>
          by_cases h5 : Signal.authoritativeSources ∈ extractSignals content now <;>
            by_cases h6 : Signal.imageManipulated ∈ extractSignals content now <;>
              by_cases h7 : Signal.manyContradictions ∈ extractSignals content now <;>
                simp [orderedSignals, sentenceOf, h1, h2, h3, h4, h5, h6, h7]

theorem explanation_ne_nil (content : JsValue) (now : Nat) :
    (mockAnalyze content now).explanation ≠ [] := by
  rw [mockAnalyze_explanation_eq]
  split
  · simp
  · rename_i h
    intro hnil
    exact h (by rw [hnil]; rfl)

end Misinfo

namespace Misinfo

/-- C1: for every signal set the scorer returns confidence equal to 50
plus the sum of the per-signal deltas of the weighted signals present
(ManyContradictions -30, AuthoritativeSources +25, FabricatedDates -20,
NoSources -15, ImageManipulated -25), clamped to [0,100]; the sum is
order-independent (any permutation of the signal list scores the same),
and adding or removing Clickbait or TooShort from the signal set never
changes the confidence. -/
theorem scorer_weights_spec (signals other : List Signal)
    (hperm : signals.Perm other) :
    fakeConfidenceFromSignals signals = clamp (50 + signalDeltaSum signals) 0 100
    ∧ fakeConfidenceFromSignals signals = fakeConfidenceFromSignals other
    ∧ fakeConfidenceFromSignals (Signal.clickbaity :: signals)
        = fakeConfidenceFromSignals signals
    ∧ fakeConfidenceFromSignals (Signal.tooShort :: signals)
        = fakeConfidenceFromSignals signals
    ∧ fakeConfidenceFromSignals (signals.erase Signal.clickbaity)
        = fakeConfidenceFromSignals signals
    ∧ fakeConfidenceFromSignals (signals.erase Signal.tooShort)
        = fakeConfidenceFromSignals signals := by
  refine ⟨fake_eq signals,
    fake_congr _ _ hperm.mem_iff hperm.mem_iff hperm.mem_iff hperm.mem_iff hperm.mem_iff,
    fake_congr _ _ (by simp) (by simp) (by simp) (by simp) (by simp),
    fake_congr _ _ (by simp) (by simp) (by simp) (by simp) (by simp),
    fake_congr _ _ (List.mem_erase_of_ne (by decide)) (List.mem_erase_of_ne (by decide))
      (List.mem_erase_of_ne (by decide)) (List.mem_erase_of_ne (by decide))
      (List.mem_erase_of_ne (by decide)),
    fake_congr _ _ (List.mem_erase_of_ne (by decide)) (List.mem_erase_of_ne (by decide))
      (List.mem_erase_of_ne (by decide)) (List.mem_erase_of_ne (by decide))
      (List.mem_erase_of_ne (by decide))⟩

/-- Witness for `scorer_weights_spec` at a concrete pair of permuted
signal lists. -/
theorem scorer_weights_spec_witness :
    ([Signal.noSources, Signal.authoritativeSources].Perm
        [Signal.authoritativeSources, Signal.noSources])
    ∧ (fakeConfidenceFromSignals [Signal.noSources, Signal.authoritativeSources]
          = clamp (50 + signalDeltaSum [Signal.noSources, Signal.authoritativeSources]) 0 100
      ∧ fakeConfidenceFromSignals [Signal.noSources, Signal.authoritativeSources]
          = fakeConfidenceFromSignals [Signal.authoritativeSources, Signal.noSources]
      ∧ fakeConfidenceFromSignals
            (Signal.clickbaity :: [Signal.noSources, Signal.authoritativeSources])
          = fakeConfidenceFromSignals [Signal.noSources, Signal.authoritativeSources]
      ∧ fakeConfidenceFromSignals
            (Signal.tooShort :: [Signal.noSources, Signal.authoritativeSources])
          = fakeConfidenceFromSignals [Signal.noSources, Signal.authoritativeSources]
      ∧ fakeConfidenceFromSignals
            ([Signal.noSources, Signal.authoritativeSources].erase Signal.clickbaity)
          = fakeConfidenceFromSignals [Signal.noSources, Signal.authoritativeSources]
      ∧ fakeConfidenceFromSignals
            ([Signal.noSources, Signal.authoritativeSources].erase Signal.tooShort)
          = fakeConfidenceFromSignals [Signal.noSources, Signal.authoritativeSources]) :=
  ⟨by decide, scorer_weights_spec _ _ (by decide)⟩

/-- C2: the verdict is a pure function of the clamped confidence alone:
confidence at least 60 yields LikelyReal, at most 35 yields LikelyFake,
and 36–59 yields NeedsReview; the boundary values 60, 35 and 36 classify
as LikelyReal, LikelyFake and NeedsReview, and the example content
containing "cdc" and "according to our sources" with no URL scores
50 + 25 - 15 = 60, so LikelyReal. -/
theorem verdict_thresholds (c : Int) (content : JsValue) (now : Nat) :
    (mockAnalyze content now).verdict = verdictOf (mockAnalyze content now).confidence
    ∧ (60 ≤ c → verdictOf c = Verdict.likelyReal)
    ∧ (c ≤ 35 → verdictOf c = Verdict.likelyFake)
    ∧ (36 ≤ c → c ≤ 59 → verdictOf c = Verdict.needsReview)
    ∧ verdictOf 60 = Verdict.likelyReal
    ∧ verdictOf 35 = Verdict.likelyFake
    ∧ verdictOf 36 = Verdict.needsReview
    ∧ (mockAnalyze (.str ("cdc says this according to our sources".toList)) now).signals
        = [Signal.noSources, Signal.authoritativeSources]
    ∧ (mockAnalyze (.str ("cdc says this according to our sources".toList)) now).confidence = 60
    ∧ (mockAnalyze (.str ("cdc says this according to our sources".toList)) now).verdict
        = Verdict.likelyReal := by
  refine ⟨rfl, ?_, ?_, ?_, by decide, by decide, by decide, rfl, rfl, rfl⟩
  · intro h
    unfold verdictOf
    rw [if_pos (by omega : c ≥ 60)]
  · intro h
    unfold verdictOf
    rw [if_neg (by omega : ¬c ≥ 60), if_pos h]
  · intro h1 h2
    unfold verdictOf
    rw [if_neg (by omega : ¬c ≥ 60), if_neg (by omega : ¬c ≤ 35)]

/-- Witness for `verdict_thresholds`, discharging its three boundary
implications at confidence 72, 20 and 45. -/
theorem verdict_thresholds_witness :
    ((60 : Int) ≤ 72 ∧ verdictOf 72 = Verdict.likelyReal)
    ∧ ((20 : Int) ≤ 35 ∧ verdictOf 20 = Verdict.likelyFake)
    ∧ ((36 : Int) ≤ 45 ∧ (45 : Int) ≤ 59 ∧ verdictOf 45 = Verdict.needsReview) :=
  ⟨⟨by decide, (verdict_thresholds 72 (JsValue.num 3) 0).2.1 (by decide)⟩,
   ⟨by decide, (verdict_thresholds 20 (JsValue.num 3) 0).2.2.1 (by decide)⟩,
   ⟨by decide, by decide,
     (verdict_thresholds 45 (JsValue.num 3) 0).2.2.2.1 (by decide) (by decide)⟩⟩

/-- C3: the returned confidence is always in [0,100]; with the four
negative-weight signals simultaneously present the raw sum
50 - 30 - 20 - 15 - 25 = -40 is clamped to 0, and the upper end of the
clamp is never exceeded either. -/
theorem confidence_in_range (signals : List Signal) (content : JsValue) (now : Nat) :
    0 ≤ fakeConfidenceFromSignals signals
    ∧ fakeConfidenceFromSignals signals ≤ 100
    ∧ 0 ≤ (mockAnalyze content now).confidence
    ∧ (mockAnalyze content now).confidence ≤ 100
    ∧ 50 + signalDeltaSum [Signal.manyContradictions, Signal.fabricatedDates,
        Signal.noSources, Signal.imageManipulated] = -40
    ∧ fakeConfidenceFromSignals [Signal.manyContradictions, Signal.fabricatedDates,
        Signal.noSources, Signal.imageManipulated] = 0 := by
  have h1 := fake_eq signals
  have h2 := clamp_bounds (50 + signalDeltaSum signals)
  have h3 := fake_eq (extractSignals content now)
  have h4 := clamp_bounds (50 + signalDeltaSum (extractSignals content now))
  refine ⟨?_, ?_, ?_, ?_, by decide, by decide⟩
  · rw [h1]; exact h2.1
  · rw [h1]; exact h2.2
  · rw [mockAnalyze_confidence, h3]; exact h4.1
  · rw [mockAnalyze_confidence, h3]; exact h4.2

end Misinfo

namespace Misinfo

/-- The enumeration order the claim asserts (Clickbait, NoSources,
FabricatedDates, ImageManipulated, AuthoritativeSources,
ManyContradictions, TooShort); stated from the spec's words to compare
against the source's order. -/
def specOrderedSignals : List Signal :=
  [Signal.clickbaity, Signal.noSources, Signal.fabricatedDates, Signal.imageManipulated,
   Signal.authoritativeSources, Signal.manyContradictions, Signal.tooShort]

/-- The explanation builder in the claimed enumeration order, with the
claimed fallback; stated from the spec's words. -/
def explainSpecOrder (signals : List Signal) : List String :=
  let e := (specOrderedSignals.filter (fun a => decide (a ∈ signals))).map sentenceOf
  if e.length = 0 then [msgNoFlags] else e

/-- C4 counterexample: on the content "shocking" (TooShort and Clickbait
both present) the code emits the TooShort sentence first and the
Clickbait sentence second, while the claimed order (Clickbait first,
TooShort last) would emit them the other way round. -/
theorem explanation_order_counterexample :
    (mockAnalyze (.str ("shocking".toList)) 0).explanation = [msgTooShort, msgClickbait]
    ∧ explainSpecOrder (mockAnalyze (.str ("shocking".toList)) 0).signals
        = [msgClickbait, msgTooShort]
    ∧ (mockAnalyze (.str ("shocking".toList)) 0).explanation
        ≠ explainSpecOrder (mockAnalyze (.str ("shocking".toList)) 0).signals := by
  refine ⟨rfl, rfl, ?_⟩
  decide

/-- C4 amended: the explanation contains exactly one fixed sentence per
present signal, appended in the source's enumeration order TooShort,
Clickbait, NoSources, FabricatedDates, AuthoritativeSources,
ImageManipulated, ManyContradictions, with exactly one fallback sentence
substituted when no signal produced text, so it is never empty. -/
theorem explanation_order_amended (content : JsValue) (now : Nat) :
    ((mockAnalyze content now).explanation =
      if ((orderedSignals.filter
            (fun a => decide (a ∈ (mockAnalyze content now).signals))).map sentenceOf).length = 0
      then [msgNoFlags]
      else (orderedSignals.filter
            (fun a => decide (a ∈ (mockAnalyze content now).signals))).map sentenceOf)
    ∧ (mockAnalyze content now).explanation ≠ [] := by
  rw [mockAnalyze_signals]
  exact ⟨mockAnalyze_explanation_eq content now, explanation_ne_nil content now⟩

/-- C5 counterexample: "event happens on 3000-01-01" contains an ISO date
token denoting a valid calendar date strictly after the analysis date
2025-10-11, yet FabricatedDates does not fire, because the source's
capture regex `20\d{2}-\d{2}-\d{2}` only accepts years 2000–2099. -/
theorem future_date_counterexample :
    hasDatePattern (lowerOf (.str ("event happens on 3000-01-01".toList))) = true
    ∧ validYMD 3000 1 1 = true
    ∧ 20251011 < dateKey 3000 1 1
    ∧ Signal.fabricatedDates ∉
        extractSignals (.str ("event happens on 3000-01-01".toList)) 20251011 := by
  decide

/-- C5 amended: FabricatedDates fires iff the content matches
`\d{4}-\d{2}-\d{2}` and the leftmost substring of the form 20YY-MM-DD
parses as a valid calendar date strictly later than the analysis date; a
past date such as "2020-01-01" does not fire it, and a future date with a
20xx year fires it. -/
theorem fabricated_dates_amended (s : List Char) (now : Nat) :
    (Signal.fabricatedDates ∈ extractSignals (.str s) now ↔
      hasDatePattern (s.map Char.toLower) = true
      ∧ ∃ y m d, firstDate20 (s.map Char.toLower) = some (y, m, d)
          ∧ validYMD y m d = true ∧ now < dateKey y m d)
    ∧ Signal.fabricatedDates ∉ extractSignals (.str ("posted on 2020-01-01".toList)) 20251011
    ∧ Signal.fabricatedDates ∈ extractSignals (.str ("posted on 2077-05-01".toList)) 20251011 := by
  refine ⟨?_, by decide, by decide⟩
  rw [fabricatedDates_mem_iff]
  have hl : lowerOf (.str s) = s.map Char.toLower := by rw [lowerOf, contentString_str]
  rw [hl]
  unfold fabricatedDatesCheck
  by_cases hd : hasDatePattern (s.map Char.toLower) = true
  · rw [if_pos hd]
    cases hfd : firstDate20 (s.map Char.toLower) with
    | none => simp [hd, hfd]
    | some r =>
      obtain ⟨y, m, d⟩ := r
      simp [hd]
      constructor
      · exact fun hv => ⟨y, m, d, ⟨rfl, rfl, rfl⟩, hv.1, hv.2⟩
      · rintro ⟨y1, m1, d1, ⟨rfl, rfl, rfl⟩, hv, hlt⟩
        exact ⟨hv, hlt⟩
  · rw [if_neg hd]
    simp [hd]

/-- C6 counterexample: the truthy non-string content 12345678901234 is
not treated as the empty string — its coerced string form has 14
characters, so TooShort does not fire and the signal set is empty rather
than exactly TooShort, and the analysis result differs from the one for
empty content. -/
theorem nonstring_content_counterexample :
    extractSignals (.num 12345678901234) 0 = []
    ∧ extractSignals (.str []) 0 = [Signal.tooShort]
    ∧ mockAnalyze (.num 12345678901234) 0 ≠ mockAnalyze (.str []) 0 := by
  refine ⟨by decide, by decide, ?_⟩
  decide

/-- Analyses with equal signal lists have equal results. -/
theorem mockAnalyze_congr (c1 c2 : JsValue) (now : Nat)
    (h : extractSignals c1 now = extractSignals c2 now) :
    mockAnalyze c1 now = mockAnalyze c2 now := by
  unfold mockAnalyze
  rw [h]

/-- Falsy content extracts exactly the TooShort signal. -/
theorem extractSignals_falsy (content : JsValue) (now : Nat)
    (h : jsFalsy content = true) :
    extractSignals content now = extractSignals (.str []) now := by
  have hc : contentString content = [] := by
    unfold contentString
    rw [if_pos h]
  have hl : lowerOf content = lowerOf (.str []) := by
    unfold lowerOf
    rw [hc, contentString_str]
  rw [extractSignals_eq, extractSignals_eq, hl, h]
  rfl

/-- C6 amended: the engine is total and every call yields a well-formed
result (clamped confidence, non-empty explanation, the fixed action
list); absent or otherwise falsy content — undefined, null, the empty
string, 0, false — is treated exactly as the empty string, for which the
signal set is exactly TooShort, the confidence 50 and the verdict
NeedsReview; a truthy non-string is instead coerced to its decimal or
boolean string form and analysed as that string. -/
theorem falsy_content_amended (content other : JsValue) (now : Nat)
    (h : jsFalsy content = true) :
    mockAnalyze content now = mockAnalyze (.str []) now
    ∧ (mockAnalyze (.str []) now).signals = [Signal.tooShort]
    ∧ (mockAnalyze (.str []) now).confidence = 50
    ∧ (mockAnalyze (.str []) now).verdict = Verdict.needsReview
    ∧ mockAnalyze (.num 7) now = mockAnalyze (.str ("7".toList)) now
    ∧ 0 ≤ (mockAnalyze other now).confidence
    ∧ (mockAnalyze other now).confidence ≤ 100
    ∧ (mockAnalyze other now).explanation ≠ []
    ∧ (mockAnalyze other now).recommendedActions = recommendedActionsList := by
  have hrange := confidence_in_range [] other now
  exact ⟨mockAnalyze_congr content (.str []) now (extractSignals_falsy content now h),
    rfl, rfl, rfl, rfl, hrange.2.2.1, hrange.2.2.2.1,
    explanation_ne_nil other now, rfl⟩

/-- Witness for `falsy_content_amended` at the concrete falsy content
`null`. -/
theorem falsy_content_amended_witness :
    jsFalsy JsValue.nullV = true
    ∧ mockAnalyze JsValue.nullV 0 = mockAnalyze (.str []) 0 :=
  ⟨by decide, (falsy_content_amended JsValue.nullV (JsValue.num 5) 0 (by decide)).1⟩

end Misinfo

namespace Misinfo

/-- C7: signal extraction works on the case-folded content (lower-casing
the input never changes the extracted signals); falsy or absent content,
or a trimmed length below 10, unconditionally puts TooShort in the signal
set; the other checks still run, so for the short upper-case content
"SHOCKING!" Clickbait co-occurs with TooShort. -/
theorem too_short_unconditional (content : JsValue) (now : Nat) (s : List Char)
    (h : jsFalsy content = true ∨ (trimL (lowerOf content)).length < 10) :
    Signal.tooShort ∈ extractSignals content now
    ∧ extractSignals (.str (s.map Char.toLower)) now = extractSignals (.str s) now
    ∧ extractSignals (.str ("SHOCKING!".toList)) now = [Signal.tooShort, Signal.clickbaity] := by
  refine ⟨?_, extractSignals_casefold s now, rfl⟩
  rw [tooShort_mem_iff]
  rcases h with h | h <;> simp [h]

/-- Witness for `too_short_unconditional` at the concrete short content
"hi". -/
theorem too_short_unconditional_witness :
    (trimL (lowerOf (.str ("hi".toList)))).length < 10
    ∧ Signal.tooShort ∈ extractSignals (.str ("hi".toList)) 0 :=
  ⟨by decide,
    (too_short_unconditional (.str ("hi".toList)) 0 [] (Or.inr (by decide))).1⟩

/-- C8 counterexample: content that claims attribution and contains the
URL-like substring "http://example.com" (which lacks the literal "https")
still fires NoSources, so the presence of a URL-like substring does not
suppress the signal as the claim states. -/
theorem no_sources_url_counterexample :
    containsL (lowerOf (.str ("according to our sources see http://example.com".toList)))
        ("http://example.com".toList) = true
    ∧ Signal.noSources ∈
        extractSignals (.str ("according to our sources see http://example.com".toList)) 0 := by
  refine ⟨by decide, by decide⟩

/-- C8 amended: NoSources fires iff the case-folded content contains the
literal phrase "according to our sources" and does not contain the
literal substring "https"; the phrase with no URL fires it, and the
phrase next to an "https" URL does not. -/
theorem no_sources_amended (s : List Char) (now : Nat) :
    (Signal.noSources ∈ extractSignals (.str s) now ↔
      containsL (s.map Char.toLower) patOurSources = true
      ∧ containsL (s.map Char.toLower) patHttps = false)
    ∧ Signal.noSources ∈
        extractSignals (.str ("water is wet according to our sources".toList)) now
    ∧ Signal.noSources ∉
        extractSignals (.str ("according to our sources https://example.com".toList)) now := by
  refine ⟨?_, List.Mem.head _, fun hmem => nomatch hmem⟩
  rw [noSources_mem_iff]
  have hl : lowerOf (.str s) = s.map Char.toLower := by rw [lowerOf, contentString_str]
  rw [hl]
  simp [Bool.and_eq_true, Bool.not_eq_true']

/-- C9: the confidence never exceeds 75 (baseline 50 plus the only
positive delta 25), so a LikelyReal verdict forces AuthoritativeSources
to be present and forbids every negative-weight signal except NoSources. -/
theorem likely_real_requires_authority (signals : List Signal) (content : JsValue) (now : Nat) :
    fakeConfidenceFromSignals signals ≤ 75
    ∧ (mockAnalyze content now).confidence ≤ 75
    ∧ (verdictOf (fakeConfidenceFromSignals signals) = Verdict.likelyReal →
        Signal.authoritativeSources ∈ signals
        ∧ Signal.manyContradictions ∉ signals
        ∧ Signal.fabricatedDates ∉ signals
        ∧ Signal.imageManipulated ∉ signals) := by
  have hb : ∀ l : List Signal, fakeConfidenceFromSignals l ≤ 75 := by
    intro l
    rw [fake_eq]
    unfold clamp signalDeltaSum
    split_ifs <;> omega
  refine ⟨hb signals, by rw [mockAnalyze_confidence]; exact hb _, ?_⟩
  intro hv
  have hc : 60 ≤ fakeConfidenceFromSignals signals := by
    by_contra hlt
    unfold verdictOf at hv
    rw [if_neg (by omega)] at hv
    split at hv <;> exact Verdict.noConfusion hv
  rw [fake_eq] at hc
  unfold clamp signalDeltaSum at hc
  by_cases h1 : Signal.manyContradictions ∈ signals <;>
    by_cases h2 : Signal.authoritativeSources ∈ signals <;>
      by_cases h3 : Signal.fabricatedDates ∈ signals <;>
        by_cases h4 : Signal.noSources ∈ signals <;>
          by_cases h5 : Signal.imageManipulated ∈ signals <;>
            simp [h1, h2, h3, h4, h5] at hc ⊢

/-- Witness for `likely_real_requires_authority` at the signal set
containing exactly AuthoritativeSources. -/
theorem likely_real_requires_authority_witness :
    verdictOf (fakeConfidenceFromSignals [Signal.authoritativeSources]) = Verdict.likelyReal
    ∧ (Signal.authoritativeSources ∈ [Signal.authoritativeSources]
       ∧ Signal.manyContradictions ∉ [Signal.authoritativeSources]
       ∧ Signal.fabricatedDates ∉ [Signal.authoritativeSources]
       ∧ Signal.imageManipulated ∉ [Signal.authoritativeSources]) :=
  ⟨by decide,
    (likely_real_requires_authority [Signal.authoritativeSources] (JsValue.num 3) 0).2.2
      (by decide)⟩

/-- C10: AuthoritativeSources detection is a plain substring test on the
case-folded content for "cdc", "who" or "nyt", firing even inside longer
words: for "whoever said this is wrong" (which contains "who" only inside
"whoever") the signal fires and the confidence is the baseline 50 plus
the +25 delta. -/
theorem authority_substring (s : List Char) (now : Nat)
    (h : containsL (s.map Char.toLower) patCdc = true
      ∨ containsL (s.map Char.toLower) patWho = true
      ∨ containsL (s.map Char.toLower) patNyt = true) :
    Signal.authoritativeSources ∈ extractSignals (.str s) now
    ∧ extractSignals (.str ("whoever said this is wrong".toList)) now
        = [Signal.authoritativeSources]
    ∧ (mockAnalyze (.str ("whoever said this is wrong".toList)) now).confidence = 50 + 25 := by
  refine ⟨?_, rfl, rfl⟩
  rw [authoritativeSources_mem_iff]
  have hl : lowerOf (.str s) = s.map Char.toLower := by rw [lowerOf, contentString_str]
  rw [hl]
  rcases h with h | h | h <;> simp [h]

/-- Witness for `authority_substring` at the concrete content containing
"who" inside "whoever". -/
theorem authority_substring_witness :
    containsL (("whoever said this is wrong".toList).map Char.toLower) patWho = true
    ∧ Signal.authoritativeSources ∈
        extractSignals (.str ("whoever said this is wrong".toList)) 0 :=
  ⟨by decide,
    (authority_substring ("whoever said this is wrong".toList) 0
      (Or.inr (Or.inl (by decide)))).1⟩

end Misinfo
